import Mathlib

/-!
Verification of the LibraryManager catalog core (library.py).

The in-memory catalog is embedded shallowly:
  * BookStatus is the two-variant enumeration with its stable Russian labels.
  * Book is a record with an optional integer id (None until the store
    assigns one), title, author, year and status.
  * The Library state carries the ordered book collection together with a
    model of the storage file: the current decoded file contents (none when
    the file does not exist) and a counter of save_books calls, so that the
    no-write optimisation of change_status is observable.
  * Fallible operations (remove_book, change_status raise ValueError on an
    unknown id) return Except; a companion run function keeps the prior
    state on failure, matching the fact that the exception propagates before
    any mutation happens.
Case folding of Python str.lower is modelled by String.toLower, and the
substring test of the in operator by an explicit character-list scan.
-/

set_option autoImplicit false

namespace LibraryManager

/-- The BookStatus enumeration of library.py: two variants carrying stable
human-readable labels used both for display and as the serialized value. -/
inductive BookStatus where
  | InStock
  | Given
deriving DecidableEq, Repr

/-- The label (Python enum value) of a status. -/
def BookStatus.value : BookStatus → String
  | .InStock => "в наличии"
  | .Given => "выдана"

/-- Enum member iteration order of BookStatus. -/
def BookStatus.members : List BookStatus := [.InStock, .Given]

/-- BookStatus.get_by_value: scans the members in order and returns the one
whose label equals the given string, or none when no label matches. -/
def BookStatus.get_by_value (value : String) : Option BookStatus :=
  BookStatus.members.find? (fun item => item.value == value)

/-- A Book record: id stays none until the store assigns it. -/
structure Book where
  id : Option Int
  title : String
  author : String
  year : Int
  status : BookStatus
deriving DecidableEq, Repr

/-- The Book constructor: id is initialised to none, the status parameter
defaults to InStock. -/
def Book.init (title : String) (author : String) (year : Int)
    (status : BookStatus := BookStatus.InStock) : Book :=
  { id := none, title := title, author := author, year := year, status := status }

/-- The serialized form of one book: the mapping produced by Book.to_dict,
with the status stored as its label string. -/
structure BookRecord where
  id : Option Int
  title : String
  author : String
  year : Int
  status : String
deriving DecidableEq, Repr

/-- Book.to_dict: the serializable mapping of a book. -/
def Book.to_dict (book : Book) : BookRecord :=
  { id := book.id, title := book.title, author := book.author,
    year := book.year, status := book.status.value }

/-- Whether needle occurs at the start of haystack (character lists). -/
def startsWith : List Char → List Char → Bool
  | [], _ => true
  | _ :: _, [] => false
  | a :: as, b :: bs => a == b && startsWith as bs

/-- Whether needle occurs as a contiguous run inside haystack: the Python
in operator on strings, on character lists. -/
def containsSub (needle : List Char) : List Char → Bool
  | [] => startsWith needle []
  | c :: cs => startsWith needle (c :: cs) || containsSub needle cs

/-- The Python substring test a in b for strings. -/
def strIn (needle haystack : String) : Bool :=
  containsSub needle.toList haystack.toList

/-- Python str.lower, modelled character by character with Char.toLower
(the two agree on ASCII text; labels and queries here stay within the
characters both functions leave fixed or fold identically). -/
def strLower (s : String) : String := ⟨s.toList.map Char.toLower⟩

/-- Python max(list, default=d): the maximum of the list, or d when the
list is empty. -/
def maxWithDefault (l : List Int) (d : Int) : Int :=
  match l with
  | [] => d
  | x :: xs => xs.foldl max x

/-- The Library state: the ordered book collection, the storage file model
(decoded contents; none when the file does not exist) and the number of
save_books calls performed so far. -/
structure Library where
  books : List Book
  storage : Option (List BookRecord)
  writes : Nat
deriving DecidableEq, Repr

/-- A Library constructed on a path with no existing file: empty collection,
no storage file yet, no writes. -/
def Library.empty : Library :=
  { books := [], storage := none, writes := 0 }

/-- Library.create_book_from_dict: rebuilds a Book from a record; the status
label is resolved via get_by_value with the Python or-fallback to InStock,
then the id is copied from the record. -/
def Library.create_book_from_dict (data : BookRecord) : Book :=
  let book := Book.init data.title data.author data.year
    ((BookStatus.get_by_value data.status).getD BookStatus.InStock)
  { book with id := data.id }

/-- Library.load_books: decodes the storage contents in file order, or
yields the empty collection when the file does not exist. -/
def Library.load_books (storage : Option (List BookRecord)) : List Book :=
  match storage with
  | none => []
  | some data => data.map Library.create_book_from_dict

/-- Library.save_books: overwrites the storage file with the serialized
collection and records that one write happened. -/
def Library.save_books (lib : Library) : Library :=
  { lib with storage := some (lib.books.map Book.to_dict),
             writes := lib.writes + 1 }

/-- Library.generate_id: 1 plus the maximum over the non-null ids in the
collection, the maximum defaulting to -1. -/
def Library.generate_id (lib : Library) : Int :=
  let max_id := maxWithDefault (lib.books.filterMap (fun book => book.id)) (-1)
  max_id + 1

/-- Library.add_book: builds a book with the default status, assigns it the
generated id, appends it to the collection, persists and returns it. -/
def Library.add_book (lib : Library) (title : String) (author : String)
    (year : Int) : Book × Library :=
  let book := Book.init title author year
  let book := { book with id := some lib.generate_id }
  let lib := { lib with books := lib.books ++ [book] }
  let lib := lib.save_books
  (book, lib)

/-- The scan of remove_book: drops the first book whose id equals the given
id, or none when no book matches. -/
def removeFirstWithId : List Book → Int → Option (List Book)
  | [], _ => none
  | book :: rest, book_id =>
    if book.id == some book_id then some rest
    else (removeFirstWithId rest book_id).map (fun l => book :: l)

/-- Library.remove_book: removes the first book with the given id and
persists; raises ValueError when no book has that id. -/
def Library.remove_book (lib : Library) (book_id : Int) :
    Except String Library :=
  match removeFirstWithId lib.books book_id with
  | some books => Except.ok (Library.save_books { lib with books := books })
  | none => Except.error "Книга с данным ID не найдена."

/-- remove_book with the exception modelled as leaving the state as it was
when the raise happened. -/
def Library.remove_book_run (lib : Library) (book_id : Int) : Library :=
  match lib.remove_book book_id with
  | Except.ok lib => lib
  | Except.error _ => lib

/-- The scan of change_status: finds the first book whose id equals the
given id; yields the returned book, the updated collection and whether the
status actually changed (hence whether save_books runs). -/
def changeStatusAux : List Book → Int → BookStatus →
    Option (Book × List Book × Bool)
  | [], _, _ => none
  | book :: rest, book_id, new_status =>
    if book.id == some book_id then
      if book.status ≠ new_status then
        let book := { book with status := new_status }
        some (book, book :: rest, true)
      else
        some (book, book :: rest, false)
    else
      (changeStatusAux rest book_id new_status).map
        (fun r => (r.1, book :: r.2.1, r.2.2))

/-- Library.change_status: on the first id match, mutates the status in
place and persists only when it differs from the new status, and returns
the book; raises ValueError when no book has that id. -/
def Library.change_status (lib : Library) (book_id : Int)
    (new_status : BookStatus) : Except String (Book × Library) :=
  match changeStatusAux lib.books book_id new_status with
  | some (book, books, changed) =>
      let lib := { lib with books := books }
      Except.ok (book, if changed then lib.save_books else lib)
  | none => Except.error "Книга с данными ID не найдена."

/-- change_status with the exception modelled as leaving the state as it
was when the raise happened. -/
def Library.change_status_run (lib : Library) (book_id : Int)
    (new_status : BookStatus) : Library :=
  match lib.change_status book_id new_status with
  | Except.ok r => r.2
  | Except.error _ => lib

/-- The match predicate of search_books, after the query has been lowered:
substring of the lowered title, of the lowered author, or of the decimal
string of the year. -/
def bookMatches (query : String) (book : Book) : Bool :=
  strIn query (strLower book.title) || strIn query (strLower book.author)
    || strIn query (toString book.year)

/-- Library.search_books: lowers the query once and filters the collection
by the three substring tests, keeping collection order. -/
def Library.search_books (lib : Library) (query : String) : List Book :=
  let query := strLower query
  lib.books.filter (fun book => bookMatches query book)

/-- Library.display_books: none when the collection is empty, otherwise the
ids of all books in collection order. -/
def Library.display_books (lib : Library) : Option (List (Option Int)) :=
  if lib.books.isEmpty then none
  else some (lib.books.map (fun book => book.id))

/-- One catalog operation, for reasoning about operation sequences. -/
inductive LibOp where
  | add (title author : String) (year : Int)
  | remove (book_id : Int)
  | setStatus (book_id : Int) (new_status : BookStatus)

/-- Applying one operation to a state; a raised ValueError leaves the
state unchanged. -/
def Library.apply_op (lib : Library) : LibOp → Library
  | .add title author year => (lib.add_book title author year).2
  | .remove book_id => lib.remove_book_run book_id
  | .setStatus book_id new_status => lib.change_status_run book_id new_status

/-- Running a sequence of operations from the empty catalog. -/
def Library.run_ops (ops : List LibOp) : Library :=
  ops.foldl Library.apply_op Library.empty

/-- The catalog invariant: every held book has a non-null id and the ids
are pairwise distinct (no duplicate entry in the id projection). -/
def booksInv (books : List Book) : Prop :=
  (∀ b ∈ books, b.id ≠ none) ∧ (books.map Book.id).Nodup

/-- Spec scenario, step 1: add Dune to the empty catalog. -/
def scenarioDune : Book × Library := Library.empty.add_book "Dune" "Herbert" 1965

/-- Spec scenario, step 2: add Foundation. -/
def scenarioFoundation : Book × Library :=
  scenarioDune.2.add_book "Foundation" "Asimov" 1951

/-- Spec scenario, step 3: remove the book with id 0. -/
def scenarioAfterRemove : Library := scenarioFoundation.2.remove_book_run 0

/-- Spec scenario, step 4: add Hyperion. -/
def scenarioHyperion : Book × Library :=
  scenarioAfterRemove.add_book "Hyperion" "Simmons" 1989

/-- Id-reuse scenario: two adds, then remove the book with id 1. -/
def reuseTwoAdds : Book × Library :=
  (Library.empty.add_book "Test Book" "Test Author" 2023).2.add_book
    "Test Book 2" "Test Author 2" 2024

/-- Id-reuse scenario: the state after removing id 1. -/
def reuseAfterRemove : Library := reuseTwoAdds.2.remove_book_run 1

/-- Id-reuse scenario: the add following the removal. -/
def reuseThirdAdd : Book × Library :=
  reuseAfterRemove.add_book "Test Book 3" "Test Author 3" 2025

/-- A three-book fixture for the year-substring example of the spec. -/
def yearExample : Library :=
  { books :=
      [{ id := some 0, title := "X", author := "x", year := 2023,
         status := BookStatus.InStock },
       { id := some 1, title := "Y", author := "y", year := 2021,
         status := BookStatus.InStock },
       { id := some 2, title := "Z", author := "z", year := 1999,
         status := BookStatus.InStock }],
    storage := none, writes := 0 }

/- ------------------------------------------------------------------ -/
/- Helper lemmas shared by the claim theorems.                        -/
/- ------------------------------------------------------------------ -/

theorem create_from_to_dict (book : Book) :
    Library.create_book_from_dict (Book.to_dict book) = book := by
  cases book with
  | mk id title author year status => cases status <;> rfl

theorem maxWithDefault_eq_getD_max (l : List Int) (d : Int) :
    maxWithDefault l d = l.max?.getD d := by
  cases l <;> rfl

theorem init_le_foldl_max (l : List Int) (a : Int) : a ≤ l.foldl max a := by
  induction l generalizing a with
  | nil => exact le_refl a
  | cons x xs ih => exact le_trans (le_max_left a x) (ih (max a x))

theorem mem_le_foldl_max (l : List Int) (a x : Int) (hx : x ∈ l) :
    x ≤ l.foldl max a := by
  induction l generalizing a with
  | nil => cases hx
  | cons y ys ih =>
    rcases List.mem_cons.mp hx with h | h
    · subst h
      exact le_trans (le_max_right a x) (init_le_foldl_max ys (max a x))
    · exact ih (max a y) h

theorem mem_le_maxWithDefault (l : List Int) (d x : Int) (hx : x ∈ l) :
    x ≤ maxWithDefault l d := by
  cases l with
  | nil => cases hx
  | cons y ys =>
    rcases List.mem_cons.mp hx with h | h
    · subst h; exact init_le_foldl_max ys x
    · exact mem_le_foldl_max ys y x h

theorem id_lt_generate_id (lib : Library) (book : Book) (i : Int)
    (hb : book ∈ lib.books) (hi : book.id = some i) : i < lib.generate_id := by
  have hmem : i ∈ lib.books.filterMap (fun book => book.id) :=
    List.mem_filterMap.mpr ⟨book, hb, hi⟩
  have hle := mem_le_maxWithDefault _ (-1) i hmem
  simp only [Library.generate_id]
  omega

theorem removeFirstWithId_eq_none (books : List Book) (book_id : Int)
    (h : ∀ b ∈ books, b.id ≠ some book_id) :
    removeFirstWithId books book_id = none := by
  induction books with
  | nil => rfl
  | cons book rest ih =>
    have hb : (book.id == some book_id) = false :=
      beq_eq_false_iff_ne.mpr (h book (List.mem_cons_self book rest))
    simp [removeFirstWithId, hb,
      ih (fun b hbm => h b (List.mem_cons_of_mem _ hbm))]

theorem changeStatusAux_eq_none (books : List Book) (book_id : Int)
    (new_status : BookStatus) (h : ∀ b ∈ books, b.id ≠ some book_id) :
    changeStatusAux books book_id new_status = none := by
  induction books with
  | nil => rfl
  | cons book rest ih =>
    have hb : (book.id == some book_id) = false :=
      beq_eq_false_iff_ne.mpr (h book (List.mem_cons_self book rest))
    simp [changeStatusAux, hb,
      ih (fun b hbm => h b (List.mem_cons_of_mem _ hbm))]

theorem changeStatusAux_cons_match_eq (book : Book) (rest : List Book)
    (book_id : Int) (new_status : BookStatus)
    (hb : (book.id == some book_id) = true)
    (hs : book.status = new_status) :
    changeStatusAux (book :: rest) book_id new_status =
      some (book, book :: rest, false) := by
  simp [changeStatusAux, hb, hs]

theorem changeStatusAux_cons_match_ne (book : Book) (rest : List Book)
    (book_id : Int) (new_status : BookStatus)
    (hb : (book.id == some book_id) = true)
    (hs : book.status ≠ new_status) :
    changeStatusAux (book :: rest) book_id new_status =
      some ({ book with status := new_status },
        { book with status := new_status } :: rest, true) := by
  simp [changeStatusAux, hb, hs]

theorem changeStatusAux_cons_skip (book : Book) (rest : List Book)
    (book_id : Int) (new_status : BookStatus)
    (hb : (book.id == some book_id) = false) :
    changeStatusAux (book :: rest) book_id new_status =
      (changeStatusAux rest book_id new_status).map
        (fun r => (r.1, book :: r.2.1, r.2.2)) := by
  simp [changeStatusAux, hb]

theorem find?_cons_head (book : Book) (rest : List Book) (book_id : Int)
    (b : Book)
    (hf : (book :: rest).find? (fun bk => bk.id == some book_id) = some b)
    (hb : (book.id == some book_id) = true) : book = b := by
  simp only [List.find?_cons, hb] at hf
  exact Option.some.inj hf

theorem find?_cons_tail (book : Book) (rest : List Book) (book_id : Int)
    (b : Book)
    (hf : (book :: rest).find? (fun bk => bk.id == some book_id) = some b)
    (hb : (book.id == some book_id) = false) :
    rest.find? (fun bk => bk.id == some book_id) = some b := by
  simp only [List.find?_cons, hb] at hf
  exact hf

theorem changeStatusAux_same (books : List Book) (book_id : Int)
    (new_status : BookStatus) (b : Book)
    (hf : books.find? (fun bk => bk.id == some book_id) = some b)
    (hs : b.status = new_status) :
    changeStatusAux books book_id new_status = some (b, books, false) := by
  induction books with
  | nil => simp at hf
  | cons book rest ih =>
    cases hb : (book.id == some book_id) with
    | true =>
      have hbb := find?_cons_head book rest book_id b hf hb
      subst hbb
      exact changeStatusAux_cons_match_eq book rest book_id new_status hb hs
    | false =>
      rw [changeStatusAux_cons_skip book rest book_id new_status hb,
        ih (find?_cons_tail book rest book_id b hf hb)]
      rfl

theorem changeStatusAux_diff (books : List Book) (book_id : Int)
    (new_status : BookStatus) (b : Book)
    (hf : books.find? (fun bk => bk.id == some book_id) = some b)
    (hs : b.status ≠ new_status) :
    changeStatusAux books book_id new_status =
      some ({ b with status := new_status },
        books.set (books.findIdx (fun bk => bk.id == some book_id))
          { b with status := new_status }, true) := by
  induction books with
  | nil => simp at hf
  | cons book rest ih =>
    cases hb : (book.id == some book_id) with
    | true =>
      have hbb := find?_cons_head book rest book_id b hf hb
      subst hbb
      rw [changeStatusAux_cons_match_ne book rest book_id new_status hb hs]
      simp [List.findIdx_cons, hb]
    | false =>
      rw [changeStatusAux_cons_skip book rest book_id new_status hb,
        ih (find?_cons_tail book rest book_id b hf hb)]
      simp [List.findIdx_cons, hb]

theorem startsWith_iff (n h : List Char) :
    startsWith n h = true ↔ n <+: h := by
  induction n generalizing h with
  | nil => simp [startsWith, List.nil_prefix]
  | cons a as ih =>
    cases h with
    | nil => simp [startsWith, List.prefix_nil]
    | cons b bs =>
      simp [startsWith, List.cons_prefix_cons, ih bs, Bool.and_eq_true,
        beq_iff_eq]

theorem containsSub_iff (n h : List Char) :
    containsSub n h = true ↔ n <:+: h := by
  induction h with
  | nil =>
    simp [containsSub, startsWith_iff, List.prefix_nil, List.infix_nil]
  | cons c cs ih =>
    simp [containsSub, Bool.or_eq_true, startsWith_iff, ih,
      List.infix_cons_iff]

theorem generate_id_fresh (lib : Library) :
    some lib.generate_id ∉ lib.books.map Book.id := by
  intro hmem
  rcases List.mem_map.mp hmem with ⟨b, hb, hid⟩
  exact absurd (id_lt_generate_id lib b lib.generate_id hb hid)
    (lt_irrefl _)

theorem booksInv_add (lib : Library) (title : String) (author : String)
    (year : Int) (h : booksInv lib.books) :
    booksInv ((lib.add_book title author year).2).books := by
  obtain ⟨h1, h2⟩ := h
  have hbooks : ((lib.add_book title author year).2).books =
      lib.books ++ [Book.mk (some lib.generate_id) title author year
        BookStatus.InStock] := rfl
  rw [hbooks]
  constructor
  · intro b hb
    rcases List.mem_append.mp hb with hb | hb
    · exact h1 b hb
    · rw [List.mem_singleton.mp hb]; simp
  · rw [List.map_append]
    simp only [List.map_cons, List.map_nil]
    rw [List.nodup_append]
    refine ⟨h2, List.nodup_singleton _, ?_⟩
    intro x hx hx1
    rw [List.mem_singleton.mp hx1] at hx
    exact generate_id_fresh lib hx

theorem removeFirstWithId_sublist (books : List Book) (book_id : Int)
    (l : List Book) (h : removeFirstWithId books book_id = some l) :
    List.Sublist l books := by
  induction books generalizing l with
  | nil => simp [removeFirstWithId] at h
  | cons book rest ih =>
    by_cases hb : (book.id == some book_id) = true
    · simp only [removeFirstWithId, hb, if_true, Option.some.injEq] at h
      rw [← h]
      exact List.sublist_cons_self book rest
    · simp only [removeFirstWithId, hb, Bool.false_eq_true, if_false,
        Option.map_eq_some'] at h
      rcases h with ⟨l2, h2, rfl⟩
      exact List.Sublist.cons₂ book (ih l2 h2)

theorem booksInv_remove (lib : Library) (book_id : Int)
    (h : booksInv lib.books) :
    booksInv (lib.remove_book_run book_id).books := by
  obtain ⟨h1, h2⟩ := h
  cases hr : removeFirstWithId lib.books book_id with
  | none =>
    have heq : lib.remove_book_run book_id = lib := by
      simp [Library.remove_book_run, Library.remove_book, hr]
    rw [heq]; exact ⟨h1, h2⟩
  | some l =>
    have hbooks : (lib.remove_book_run book_id).books = l := by
      simp [Library.remove_book_run, Library.remove_book, hr,
        Library.save_books]
    rw [hbooks]
    have hsub := removeFirstWithId_sublist lib.books book_id l hr
    exact ⟨fun b hb => h1 b (hsub.subset hb), (hsub.map Book.id).nodup h2⟩

theorem changeStatusAux_map_id (books : List Book) (book_id : Int)
    (new_status : BookStatus) (b : Book) (l : List Book) (w : Bool)
    (h : changeStatusAux books book_id new_status = some (b, l, w)) :
    l.map Book.id = books.map Book.id := by
  induction books generalizing b l w with
  | nil => simp [changeStatusAux] at h
  | cons book rest ih =>
    cases hb : (book.id == some book_id) with
    | true =>
      by_cases hs : book.status = new_status
      · rw [changeStatusAux_cons_match_eq book rest book_id new_status
          hb hs] at h
        have hl : book :: rest = l :=
          congrArg (fun x => x.2.1) (Option.some.inj h)
        rw [← hl]
      · rw [changeStatusAux_cons_match_ne book rest book_id new_status
          hb hs] at h
        have hl : { book with status := new_status } :: rest = l :=
          congrArg (fun x => x.2.1) (Option.some.inj h)
        rw [← hl]
        simp
    | false =>
      rw [changeStatusAux_cons_skip book rest book_id new_status hb] at h
      rcases Option.map_eq_some'.mp h with ⟨r, haux, hr⟩
      obtain ⟨b2, l2, w2⟩ := r
      have hl : book :: l2 = l := congrArg (fun x => x.2.1) hr
      rw [← hl]
      simp only [List.map_cons]
      rw [ih b2 l2 w2 haux]

theorem booksInv_change (lib : Library) (book_id : Int)
    (new_status : BookStatus) (h : booksInv lib.books) :
    booksInv (lib.change_status_run book_id new_status).books := by
  obtain ⟨h1, h2⟩ := h
  cases hr : changeStatusAux lib.books book_id new_status with
  | none =>
    have heq : lib.change_status_run book_id new_status = lib := by
      simp [Library.change_status_run, Library.change_status, hr]
    rw [heq]; exact ⟨h1, h2⟩
  | some r =>
    obtain ⟨b, l, w⟩ := r
    have hmap := changeStatusAux_map_id lib.books book_id new_status b l w hr
    have hbooks : (lib.change_status_run book_id new_status).books = l := by
      cases w <;>
        simp [Library.change_status_run, Library.change_status, hr,
          Library.save_books]
    rw [hbooks]
    constructor
    · intro bk hbk
      have hmem : bk.id ∈ l.map Book.id := List.mem_map_of_mem _ hbk
      rw [hmap] at hmem
      rcases List.mem_map.mp hmem with ⟨b0, hb0, hid⟩
      rw [← hid]
      exact h1 b0 hb0
    · rw [hmap]; exact h2

theorem apply_op_preserves (lib : Library) (op : LibOp)
    (h : booksInv lib.books) : booksInv (lib.apply_op op).books := by
  cases op with
  | add title author year => exact booksInv_add lib title author year h
  | remove book_id => exact booksInv_remove lib book_id h
  | setStatus book_id new_status =>
    exact booksInv_change lib book_id new_status h

theorem foldl_ops_preserve (ops : List LibOp) (lib : Library)
    (h : booksInv lib.books) :
    booksInv (ops.foldl Library.apply_op lib).books := by
  induction ops generalizing lib with
  | nil => exact h
  | cons op rest ih => exact ih _ (apply_op_preserves lib op h)

/- ------------------------------------------------------------------ -/
/- Claim theorems.                                                    -/
/- ------------------------------------------------------------------ -/

/-- C1: generate_id returns 1 plus the maximum non-null id over the
collection, the maximum defaulting to -1 (so 0 when no identified book
exists); and the spec scenario holds: from the empty catalog the first two
adds get ids 0 and 1, after remove(0) exactly the Foundation book (id 1)
remains, and the next add gets id 2, not 0. -/
theorem generate_id_max_plus_one :
    (∀ lib : Library,
      lib.generate_id =
        (lib.books.filterMap (fun book => book.id)).max?.getD (-1) + 1) ∧
    (scenarioDune.1.id = some 0 ∧
     scenarioDune.1.status = BookStatus.InStock ∧
     scenarioFoundation.1.id = some 1 ∧
     scenarioFoundation.2.remove_book 0 = Except.ok scenarioAfterRemove ∧
     scenarioAfterRemove.books.map Book.title = ["Foundation"] ∧
     scenarioAfterRemove.books.map Book.id = [some 1] ∧
     scenarioHyperion.1.id = some 2) := by
  constructor
  · intro lib
    simp only [Library.generate_id]
    rw [maxWithDefault_eq_getD_max]
  · exact ⟨by decide, by decide, by decide, rfl, by decide, by decide,
      by decide⟩

/-- C2: add_book builds a book carrying the given title, author and year
with the default status InStock, assigns it the freshly generated id,
appends it at the end of the collection, persists the full collection
(exactly one more write) and returns that same book. -/
theorem add_book_spec (lib : Library) (title : String) (author : String)
    (year : Int) :
    let r := lib.add_book title author year
    r.1 = { id := some lib.generate_id, title := title, author := author,
            year := year, status := BookStatus.InStock } ∧
    r.2.books = lib.books ++ [r.1] ∧
    r.2.storage = some (r.2.books.map Book.to_dict) ∧
    r.2.writes = lib.writes + 1 :=
  ⟨rfl, rfl, rfl, rfl⟩

/-- C6: add_book followed immediately by reloading the collection from
storage reproduces the identical collection; in particular the
to_dict / create_book_from_dict round trip preserves id, title, author,
year and status of every book. -/
theorem add_reload_round_trip :
    (∀ book : Book,
      Library.create_book_from_dict (Book.to_dict book) = book) ∧
    (∀ (lib : Library) (title author : String) (year : Int),
      Library.load_books ((lib.add_book title author year).2).storage =
        ((lib.add_book title author year).2).books) := by
  refine ⟨create_from_to_dict, ?_⟩
  intro lib title author year
  simp only [Library.add_book, Library.save_books, Library.load_books,
    List.map_map]
  have h : Library.create_book_from_dict ∘ Book.to_dict = id :=
    funext create_from_to_dict
  rw [h, List.map_id]

/-- C7: decoding a record never fails on the status field: a string equal
to one of the two labels resolves to that variant, and every other string
falls back to InStock. -/
theorem status_label_fallback (data : BookRecord) :
    (Library.create_book_from_dict data).status =
      (if data.status = BookStatus.InStock.value then BookStatus.InStock
       else if data.status = BookStatus.Given.value then BookStatus.Given
       else BookStatus.InStock) := by
  simp only [Library.create_book_from_dict, Book.init,
    BookStatus.get_by_value, BookStatus.members, List.find?,
    BookStatus.value]
  by_cases h1 : data.status = "в наличии"
  · simp [h1]
  · by_cases h2 : data.status = "выдана"
    · simp [h1, h2, Ne.symm h1]
    · have e1 : (("в наличии" : String) == data.status) = false :=
        beq_eq_false_iff_ne.mpr (Ne.symm h1)
      have e2 : (("выдана" : String) == data.status) = false :=
        beq_eq_false_iff_ne.mpr (Ne.symm h2)
      simp [e1, e2, h1, h2]

/-- C9: the id of a removed book can be handed out again: from the empty
catalog, add (id 0), add (id 1), remove(1), then the next add returns id 1,
because generate_id maximises over the current collection only. -/
theorem removed_id_reused :
    (Library.empty.add_book "Test Book" "Test Author" 2023).1.id = some 0 ∧
    reuseTwoAdds.1.id = some 1 ∧
    reuseTwoAdds.2.remove_book 1 = Except.ok reuseAfterRemove ∧
    reuseThirdAdd.1.id = some 1 :=
  ⟨by decide, by decide, rfl, by decide⟩

/-- C10: display_books returns none, not an empty sequence, on an empty
collection, and the ordered list of the ids of all books otherwise. -/
theorem display_books_spec (lib : Library) :
    (lib.books = [] → lib.display_books = none) ∧
    (lib.books ≠ [] →
      lib.display_books = some (lib.books.map (fun book => book.id))) := by
  constructor
  · intro h; simp [Library.display_books, h]
  · intro h; simp [Library.display_books, List.isEmpty_iff, h]

/-- Witness for C10 at the empty catalog and at a one-book catalog. -/
theorem display_books_spec_witness :
    Library.empty.display_books = none ∧
    (Library.empty.add_book "Dune" "Herbert" 1965).2.display_books =
      some [some 0] := by
  constructor
  · exact (display_books_spec Library.empty).1 rfl
  · rw [(display_books_spec
      (Library.empty.add_book "Dune" "Herbert" 1965).2).2 (by decide)]
    decide

/-- C3: on an id held by no book in the collection, remove_book and
change_status both fail with the NotFound ValueError, and the collection,
the storage file and the write count are all left exactly as they were. -/
theorem not_found_untouched (lib : Library) (book_id : Int)
    (new_status : BookStatus)
    (h : ∀ b ∈ lib.books, b.id ≠ some book_id) :
    lib.remove_book book_id =
      Except.error "Книга с данным ID не найдена." ∧
    lib.remove_book_run book_id = lib ∧
    lib.change_status book_id new_status =
      Except.error "Книга с данными ID не найдена." ∧
    lib.change_status_run book_id new_status = lib := by
  have h1 : removeFirstWithId lib.books book_id = none :=
    removeFirstWithId_eq_none _ _ h
  have h2 : changeStatusAux lib.books book_id new_status = none :=
    changeStatusAux_eq_none _ _ _ h
  refine ⟨?_, ?_, ?_, ?_⟩ <;>
    simp [Library.remove_book, Library.remove_book_run,
      Library.change_status, Library.change_status_run, h1, h2]

/-- Witness for C3: id 999 on the one-book catalog. -/
theorem not_found_untouched_witness :
    scenarioDune.2.remove_book_run 999 = scenarioDune.2 ∧
    scenarioDune.2.change_status_run 999 BookStatus.Given =
      scenarioDune.2 := by
  have h := not_found_untouched scenarioDune.2 999 BookStatus.Given
    (by decide)
  exact ⟨h.2.1, h.2.2.2⟩

/-- C4: change_status on a held id returns the first matching book: when
the requested status equals its current one the whole state (collection,
storage, write count) is returned unchanged, and when it differs exactly
that book is replaced by a status-updated copy and the full collection is
persisted with one more write. -/
theorem change_status_frame (lib : Library) (book_id : Int)
    (new_status : BookStatus) (b : Book)
    (hf : lib.books.find? (fun bk => bk.id == some book_id) = some b) :
    (b.status = new_status →
      lib.change_status book_id new_status = Except.ok (b, lib)) ∧
    (b.status ≠ new_status →
      lib.change_status book_id new_status =
        Except.ok ({ b with status := new_status },
          { books := lib.books.set
              (lib.books.findIdx (fun bk => bk.id == some book_id))
              { b with status := new_status },
            storage := some ((lib.books.set
              (lib.books.findIdx (fun bk => bk.id == some book_id))
              { b with status := new_status }).map Book.to_dict),
            writes := lib.writes + 1 })) := by
  constructor
  · intro hs
    have h := changeStatusAux_same lib.books book_id new_status b hf hs
    simp [Library.change_status, h]
  · intro hs
    have h := changeStatusAux_diff lib.books book_id new_status b hf hs
    simp [Library.change_status, h, Library.save_books]

/-- Witness for C4: re-setting InStock on the one-book catalog returns the
identical state. -/
theorem change_status_frame_witness :
    scenarioDune.2.change_status 0 BookStatus.InStock =
      Except.ok (scenarioDune.1, scenarioDune.2) := by
  have h := change_status_frame scenarioDune.2 0 BookStatus.InStock
    scenarioDune.1 (by decide)
  exact h.1 (by decide)

/-- C5: search_books returns exactly the books whose lowered title,
lowered author or decimal year string contains the lowered query, as a
sublist of the collection (original order); an empty collection yields the
empty sequence, and on the year fixture the query 202 matches the books
with years 2023 and 2021 but not 1999. -/
theorem search_books_spec (lib : Library) (query : String) :
    (∀ b, b ∈ lib.search_books query ↔ b ∈ lib.books ∧
      ((strLower query).toList <:+: (strLower b.title).toList ∨
       (strLower query).toList <:+: (strLower b.author).toList ∨
       (strLower query).toList <:+: (toString b.year).toList)) ∧
    List.Sublist (lib.search_books query) lib.books ∧
    (lib.books = [] → lib.search_books query = []) ∧
    (yearExample.search_books "202").map Book.year = [2023, 2021] := by
  refine ⟨?_, ?_, ?_, by decide⟩
  · intro b
    simp [Library.search_books, List.mem_filter, bookMatches, strIn,
      containsSub_iff, Bool.or_eq_true, or_assoc]
  · simp only [Library.search_books]
    exact List.filter_sublist _
  · intro hb
    simp [Library.search_books, hb]

/-- Witness for C5: the empty query on the empty catalog. -/
theorem search_books_spec_witness :
    Library.empty.search_books "" = [] :=
  (search_books_spec Library.empty "").2.2.1 rfl

/-- C8: starting from the empty catalog, every sequence of add, remove and
change-status operations keeps every id non-null and all ids pairwise
distinct. -/
theorem ops_preserve_id_invariant (ops : List LibOp) :
    booksInv (Library.run_ops ops).books :=
  foldl_ops_preserve ops Library.empty
    ⟨by simp [Library.empty], by simp [Library.empty]⟩

end LibraryManager
